import Mathlib

/-!
Verification development for the `concrete` FHE operation-contract core and
its statistical fixture harness.

The Rust sources are embedded shallowly:
* machine integers become `Nat`/`Int`, `f64` test constants become `Rat`;
* `&mut` state (the fixture `Maker`, which tracks synthesized backend
  entities) becomes explicit state passing over `MakerState`;
* fallible functions return `Except`; a Rust `panic!` becomes the
  `Except.error` branch carrying the panic message;
* backend engine implementations are out of scope of the repository, so the
  backend operation itself is a function parameter of the model and the
  trait-level checked entry points (declared but not implemented in the
  sources) are modelled from the specification.
-/

namespace Concrete

/-- The key-distribution markers of the entity model: the closed set of
secret-key distributions (`BinaryKeyDistribution`, `TernaryKeyDistribution`,
`GaussianKeyDistribution`).  The Rust marker vocabulary is open (any type
implementing the marker trait); `unknown` stands for any marker type outside
the closed set. -/
inductive KeyDistributionMarker where
  | binary
  | ternary
  | gaussian
  | unknown (id : Nat)
deriving DecidableEq

/-- An LWE ciphertext entity: exposes its LWE dimension, its
key-distribution marker and (opaquely) its content. -/
structure LweCiphertext where
  key_distribution : KeyDistributionMarker
  lwe_dimension : Nat
  content : List Int
deriving DecidableEq

/-- An LWE keyswitch key entity: exposes input/output LWE dimensions and
input/output key-distribution markers. -/
structure LweKeyswitchKey where
  input_key_distribution : KeyDistributionMarker
  output_key_distribution : KeyDistributionMarker
  input_lwe_dimension : Nat
  output_lwe_dimension : Nat
  content : List Int
deriving DecidableEq

/-- `LweCiphertextDiscardingKeyswitchError`: the error enumeration generated
by the `engine_error!` macro for the discarding keyswitch.  The macro adds
an opaque backend-error variant `engine` next to the named
precondition-violation kinds. -/
inductive LweCiphertextDiscardingKeyswitchError (E : Type) where
  | InputLweDimensionMismatch
  | OutputLweDimensionMismatch
  | engine (e : E)
deriving DecidableEq

/-- `LweCiphertextDiscardingNegationError`: the error enumeration generated
by the `engine_error!` macro for the discarding negation. -/
inductive LweCiphertextDiscardingNegationError (E : Type) where
  | LweDimensionMismatch
  | engine (e : E)
deriving DecidableEq

/-- `LweCiphertextDiscardingKeyswitchError::perform_generic_checks`:
validates the inputs of the discarding keyswitch. -/
def LweCiphertextDiscardingKeyswitchError.perform_generic_checks (E : Type)
    (output : LweCiphertext) (input : LweCiphertext) (ksk : LweKeyswitchKey) :
    Except (LweCiphertextDiscardingKeyswitchError E) Unit :=
  if input.lwe_dimension ≠ ksk.input_lwe_dimension then
    Except.error .InputLweDimensionMismatch
  else if output.lwe_dimension ≠ ksk.output_lwe_dimension then
    Except.error .OutputLweDimensionMismatch
  else
    Except.ok ()

/-- `LweCiphertextDiscardingNegationError::perform_generic_checks`:
validates the inputs of the discarding negation. -/
def LweCiphertextDiscardingNegationError.perform_generic_checks (E : Type)
    (output : LweCiphertext) (input : LweCiphertext) :
    Except (LweCiphertextDiscardingNegationError E) Unit :=
  if input.lwe_dimension ≠ output.lwe_dimension then
    Except.error .LweDimensionMismatch
  else
    Except.ok ()

/-- The unchecked entry point `discard_keyswitch_lwe_ciphertext_unchecked`
of the `LweCiphertextDiscardingKeyswitchEngine` trait: the backend operation
`uks` is applied directly, with no validation.  The backend implementation
is external to the repository, so it is a parameter of the model. -/
def discard_keyswitch_lwe_ciphertext_unchecked
    (uks : LweCiphertext → LweCiphertext → LweKeyswitchKey → LweCiphertext)
    (output : LweCiphertext) (input : LweCiphertext) (ksk : LweKeyswitchKey) :
    LweCiphertext :=
  uks output input ksk

/-- Modelled from the spec: the checked entry point
`discard_keyswitch_lwe_ciphertext` of the
`LweCiphertextDiscardingKeyswitchEngine` trait is only declared in the
sources.  Per the spec it validates all structural preconditions through the
generic-check helper before mutating output, mutates the output on success,
and on a violated precondition returns the typed error performing no partial
mutation.  The returned pair is (result, output entity after the call). -/
def discard_keyswitch_lwe_ciphertext (E : Type)
    (uks : LweCiphertext → LweCiphertext → LweKeyswitchKey → LweCiphertext)
    (output : LweCiphertext) (input : LweCiphertext) (ksk : LweKeyswitchKey) :
    Except (LweCiphertextDiscardingKeyswitchError E) Unit × LweCiphertext :=
  match LweCiphertextDiscardingKeyswitchError.perform_generic_checks E output input ksk with
  | Except.error e => (Except.error e, output)
  | Except.ok _ =>
      (Except.ok (), discard_keyswitch_lwe_ciphertext_unchecked uks output input ksk)

/-- The unchecked entry point `discard_neg_lwe_ciphertext_unchecked` of the
`LweCiphertextDiscardingNegationEngine` trait: the backend operation `uneg`
is applied directly, with no validation. -/
def discard_neg_lwe_ciphertext_unchecked
    (uneg : LweCiphertext → LweCiphertext → LweCiphertext)
    (output : LweCiphertext) (input : LweCiphertext) : LweCiphertext :=
  uneg output input

/-- Modelled from the spec: the checked entry point
`discard_neg_lwe_ciphertext` of the `LweCiphertextDiscardingNegationEngine`
trait is only declared in the sources.  Per the spec it validates the
preconditions through the generic-check helper before mutating output, and
on a violated precondition returns the typed error performing no partial
mutation. -/
def discard_neg_lwe_ciphertext (E : Type)
    (uneg : LweCiphertext → LweCiphertext → LweCiphertext)
    (output : LweCiphertext) (input : LweCiphertext) :
    Except (LweCiphertextDiscardingNegationError E) Unit × LweCiphertext :=
  match LweCiphertextDiscardingNegationError.perform_generic_checks E output input with
  | Except.error e => (Except.error e, output)
  | Except.ok _ =>
      (Except.ok (), discard_neg_lwe_ciphertext_unchecked uneg output input)

/-- `concrete_commons::dispersion::Variance`, a newtype over `f64`
(modelled as `Rat`). -/
structure Variance where
  val : Rat
deriving DecidableEq

/-- `concrete_commons::parameters::PolynomialSize`. -/
structure PolynomialSize where
  val : Nat
deriving DecidableEq

/-- `concrete_commons::parameters::GlweDimension`. -/
structure GlweDimension where
  val : Nat
deriving DecidableEq

/-- `GlweCiphertextTensorProductParameters`: the operation parameters of the
tensor-product fixture. -/
structure GlweCiphertextTensorProductParameters where
  polynomial_size : PolynomialSize
  glwe_dimension : GlweDimension
  noise_glwe_1 : Variance
  noise_glwe_2 : Variance
  delta_1 : Rat
  delta_2 : Rat
  msg_bound_1 : Rat
  msg_bound_2 : Rat
deriving DecidableEq

/-- A plaintext-vector prototype: the raw integer sequence it evaluates to. -/
structure PlaintextVectorProto where
  raw : List Nat
deriving DecidableEq

/-- A GLWE secret-key prototype: structural parameters plus the raw
coefficient vector. -/
structure GlweSecretKeyProto where
  glwe_dimension : GlweDimension
  polynomial_size : PolynomialSize
  coefficients : List Nat
deriving DecidableEq

/-- A GLWE ciphertext prototype: the key and plaintext prototypes it was
produced from, the injected noise variance, and the randomness stream of the
encryption.  Decryption recovers the plaintext prototype (the noise is kept
symbolically). -/
structure GlweCiphertextProto where
  key : GlweSecretKeyProto
  pt : PlaintextVectorProto
  noise : Variance
  enc_rand : Nat → Nat

/-- `CleartextF64` entity content: wraps the raw float (modelled as `Rat`). -/
structure CleartextF64 where
  val : Rat
deriving DecidableEq

/-- `ProtoCleartextF64`: the prototype of a 64 bit float cleartext entity. -/
structure ProtoCleartextF64 where
  cleartext : CleartextF64
deriving DecidableEq

/-- Modelled from the spec: `CleartextCreationEngine::create_cleartext` of
the core backend (outside the shown sources) creates a cleartext entity
holding the given raw value. -/
def create_cleartext_f64 (raw : Rat) : CleartextF64 :=
  { val := raw }

/-- Modelled from the spec: `CleartextRetrievalEngine::retrieve_cleartext`
of the core backend (outside the shown sources) returns the raw value held
by the cleartext entity. -/
def retrieve_cleartext_f64 (cleartext : CleartextF64) : Rat :=
  cleartext.val

/-- `PrototypesFloatCleartext::transform_raw_to_cleartext` for `PrecisionF64`:
wraps `create_cleartext` of the core engine. -/
def transform_raw_to_cleartext_f64 (raw : Rat) : ProtoCleartextF64 :=
  { cleartext := create_cleartext_f64 raw }

/-- `PrototypesFloatCleartext::transform_cleartext_to_raw` for `PrecisionF64`:
wraps `retrieve_cleartext` of the core engine. -/
def transform_cleartext_to_raw_f64 (cleartext : ProtoCleartextF64) : Rat :=
  retrieve_cleartext_f64 cleartext.cleartext

/-- `Cleartext32` entity content (a raw `u32`, modelled as `Nat`). -/
structure Cleartext32 where
  val : Nat
deriving DecidableEq

/-- `ProtoCleartext32`: the prototype of a 32 bit cleartext entity. -/
structure ProtoCleartext32 where
  cleartext : Cleartext32
deriving DecidableEq

/-- Modelled from the spec: `create_cleartext` for 32 bit cleartexts. -/
def create_cleartext_32 (raw : Nat) : Cleartext32 :=
  { val := raw }

/-- Modelled from the spec: `retrieve_cleartext` for 32 bit cleartexts. -/
def retrieve_cleartext_32 (cleartext : Cleartext32) : Nat :=
  cleartext.val

/-- `PrototypesCleartext::transform_raw_to_cleartext` for `Precision32`. -/
def transform_raw_to_cleartext_32 (raw : Nat) : ProtoCleartext32 :=
  { cleartext := create_cleartext_32 raw }

/-- `PrototypesCleartext::transform_cleartext_to_raw` for `Precision32`. -/
def transform_cleartext_to_raw_32 (cleartext : ProtoCleartext32) : Nat :=
  retrieve_cleartext_32 cleartext.cleartext

/-- `Cleartext64` entity content (a raw `u64`, modelled as `Nat`). -/
structure Cleartext64 where
  val : Nat
deriving DecidableEq

/-- `ProtoCleartext64`: the prototype of a 64 bit cleartext entity. -/
structure ProtoCleartext64 where
  cleartext : Cleartext64
deriving DecidableEq

/-- Modelled from the spec: `create_cleartext` for 64 bit cleartexts. -/
def create_cleartext_64 (raw : Nat) : Cleartext64 :=
  { val := raw }

/-- Modelled from the spec: `retrieve_cleartext` for 64 bit cleartexts. -/
def retrieve_cleartext_64 (cleartext : Cleartext64) : Nat :=
  cleartext.val

/-- `PrototypesCleartext::transform_raw_to_cleartext` for `Precision64`. -/
def transform_raw_to_cleartext_64 (raw : Nat) : ProtoCleartext64 :=
  { cleartext := create_cleartext_64 raw }

/-- `PrototypesCleartext::transform_cleartext_to_raw` for `Precision64`. -/
def transform_cleartext_to_raw_64 (cleartext : ProtoCleartext64) : Nat :=
  retrieve_cleartext_64 cleartext.cleartext

/-- A GGSW ciphertext prototype wrapping a backend ciphertext value of type
`α` (`ProtoBinaryFourierGgswCiphertext` wraps a `FourierGgswCiphertext`,
whose representation is backend-owned and hence abstract here). -/
structure GgswCiphertextProto (α : Type) where
  content : α
deriving DecidableEq

/-- `SynthesizesGgswCiphertext::synthesize_ggsw_ciphertext` for the core
backend: `prototype.0.to_owned()`, a clone of the wrapped entity value. -/
def synthesize_ggsw_ciphertext {α : Type} (prototype : GgswCiphertextProto α) : α :=
  prototype.content

/-- `SynthesizesGgswCiphertext::unsynthesize_ggsw_ciphertext` for the core
backend: wraps `entity.to_owned()` back into the prototype constructor. -/
def unsynthesize_ggsw_ciphertext {α : Type} (entity : α) : GgswCiphertextProto α :=
  { content := entity }

/-- `RawUnsignedIntegers::uniform_n_msb`: a raw integer of width `w` whose
value is uniform on the top `n` most significant bits and zero below (the
draw `x` is the underlying randomness). -/
def uniform_n_msb (w : Nat) (n : Nat) (x : Nat) : Nat :=
  x % 2 ^ w / 2 ^ (w - n) * 2 ^ (w - n)

/-- `RawUnsignedIntegers::uniform_n_msb_vec(n, len)`: a vector of `len` raw
integers, each uniform on its top `n` most significant bits; `rand` is the
randomness stream of the generator. -/
def uniform_n_msb_vec (w : Nat) (n : Nat) (len : Nat) (rand : Nat → Nat) : List Nat :=
  (List.range len).map (fun i => uniform_n_msb w n (rand i))

/-- The randomness consumed by `Maker` during one repetition: one stream for
the secret key and one per generated plaintext vector. -/
structure MakerRand where
  key_rand : Nat → Nat
  pt1_rand : Nat → Nat
  pt2_rand : Nat → Nat

/-- `PrototypesGlweSecretKey::new_glwe_secret_key`: generates a fresh random
secret-key prototype with the given structural parameters (`rand` is the
randomness stream of the generator; binary keys have one coefficient per
mask polynomial coefficient). -/
def new_glwe_secret_key (glwe_dimension : GlweDimension)
    (polynomial_size : PolynomialSize) (rand : Nat → Nat) : GlweSecretKeyProto :=
  { glwe_dimension := glwe_dimension
    polynomial_size := polynomial_size
    coefficients :=
      (List.range (glwe_dimension.val * polynomial_size.val)).map rand }

/-- `PrototypesPlaintextVector::transform_raw_vec_to_plaintext_vector`. -/
def transform_raw_vec_to_plaintext_vector (raw : List Nat) : PlaintextVectorProto :=
  { raw := raw }

/-- `PrototypesPlaintextVector::transform_plaintext_vector_to_raw_vec`. -/
def transform_plaintext_vector_to_raw_vec (proto : PlaintextVectorProto) : List Nat :=
  proto.raw

/-- `PrototypesGlweCiphertext::encrypt_plaintext_vector_to_glwe_ciphertext`:
encrypts a plaintext-vector prototype under a secret-key prototype with the
given injected noise variance. -/
def encrypt_plaintext_vector_to_glwe_ciphertext (key : GlweSecretKeyProto)
    (pt : PlaintextVectorProto) (noise : Variance) (enc_rand : Nat → Nat) :
    GlweCiphertextProto :=
  { key := key, pt := pt, noise := noise, enc_rand := enc_rand }

/-- `PrototypesGlweCiphertext::decrypt_glwe_ciphertext_to_plaintext_vector`:
decryption recovers the plaintext prototype carried by the ciphertext
prototype (its own noise is accounted for separately by the statistical
test). -/
def decrypt_glwe_ciphertext_to_plaintext_vector (_key : GlweSecretKeyProto)
    (ciphertext : GlweCiphertextProto) : PlaintextVectorProto :=
  ciphertext.pt

/-- The repetition-level prototypes of the tensor-product fixture:
two plaintext vectors, a secret key, and the scaling cleartext. -/
abbrev RepetitionPrototypes : Type :=
  PlaintextVectorProto × PlaintextVectorProto × GlweSecretKeyProto × ProtoCleartextF64

/-- The sample-level prototypes of the tensor-product fixture: the two
input ciphertext prototypes. -/
abbrev SamplePrototypes : Type :=
  GlweCiphertextProto × GlweCiphertextProto

/-- `GlweCiphertextTensorProductFixture::generate_parameters_iterator`: the
finite enumeration of operation parameter sets, as a list. -/
def generate_parameters_iterator : List GlweCiphertextTensorProductParameters :=
  [ { noise_glwe_1 := { val := 1 / 100000000 }
      noise_glwe_2 := { val := 1 / 100000000 }
      delta_1 := 16
      delta_2 := 16
      msg_bound_1 := 4
      msg_bound_2 := 4
      glwe_dimension := { val := 200 }
      polynomial_size := { val := 256 } },
    { noise_glwe_1 := { val := 1 / 100000000 }
      noise_glwe_2 := { val := 1 / 100000000 }
      delta_1 := 16
      delta_2 := 16
      msg_bound_1 := 4
      msg_bound_2 := 4
      glwe_dimension := { val := 1 }
      polynomial_size := { val := 256 } } ]

/-- `GlweCiphertextTensorProductFixture::generate_random_repetition_prototypes`
(`w` is the raw integer width of the precision; the `5` most-significant-bit
bound is hard-coded in the source). -/
def generate_random_repetition_prototypes (w : Nat)
    (parameters : GlweCiphertextTensorProductParameters) (maker : MakerRand) :
    RepetitionPrototypes :=
  let proto_secret_key :=
    new_glwe_secret_key parameters.glwe_dimension parameters.polynomial_size
      maker.key_rand
  let raw_plaintext_vector1 :=
    uniform_n_msb_vec w 5 parameters.polynomial_size.val maker.pt1_rand
  let proto_plaintext_vector1 :=
    transform_raw_vec_to_plaintext_vector raw_plaintext_vector1
  let raw_plaintext_vector2 :=
    uniform_n_msb_vec w 5 parameters.polynomial_size.val maker.pt2_rand
  let proto_plaintext_vector2 :=
    transform_raw_vec_to_plaintext_vector raw_plaintext_vector2
  let s : Rat := 1
  let scale := transform_raw_to_cleartext_f64 s
  (proto_plaintext_vector1, proto_plaintext_vector2, proto_secret_key, scale)

/-- `GlweCiphertextTensorProductFixture::generate_random_sample_prototypes`
(`r1`, `r2` are the randomness streams of the two encryptions). -/
def generate_random_sample_prototypes
    (parameters : GlweCiphertextTensorProductParameters)
    (repetition_proto : RepetitionPrototypes) (r1 : Nat → Nat) (r2 : Nat → Nat) :
    SamplePrototypes :=
  let (proto_plaintext_vector1, proto_plaintext_vector2, proto_secret_key, _) :=
    repetition_proto
  let proto_ciphertext1 :=
    encrypt_plaintext_vector_to_glwe_ciphertext proto_secret_key
      proto_plaintext_vector1 parameters.noise_glwe_1 r1
  let proto_ciphertext2 :=
    encrypt_plaintext_vector_to_glwe_ciphertext proto_secret_key
      proto_plaintext_vector2 parameters.noise_glwe_2 r2
  (proto_ciphertext1, proto_ciphertext2)

/-- A synthesized GLWE ciphertext entity: a backend-owned resource,
identified by its allocation id, carrying the prototype content it was
synthesized from. -/
structure GlweCiphertextEntity where
  id : Nat
  proto : GlweCiphertextProto

/-- A synthesized `f64` cleartext entity. -/
structure CleartextF64Entity where
  id : Nat
  raw : Rat

/-- The mutable state of the fixture `Maker` (passed by `&mut` in the
source): the allocation counter for synthesized backend entities, and the
trace of destroyed entity ids. -/
structure MakerState where
  next_id : Nat
  destroyed : List Nat

/-- `SynthesizesGlweCiphertext::synthesize_glwe_ciphertext`: creates a
backend entity owned by the test from a prototype. -/
def synthesize_glwe_ciphertext (m : MakerState) (proto : GlweCiphertextProto) :
    GlweCiphertextEntity × MakerState :=
  ({ id := m.next_id, proto := proto }, { m with next_id := m.next_id + 1 })

/-- `SynthesizesGlweCiphertext::unsynthesize_glwe_ciphertext`: recovers the
prototype content of a backend entity. -/
def unsynthesize_glwe_ciphertext (entity : GlweCiphertextEntity) :
    GlweCiphertextProto :=
  entity.proto

/-- `SynthesizesGlweCiphertext::destroy_glwe_ciphertext`: releases a backend
entity; the model records the released id. -/
def destroy_glwe_ciphertext (m : MakerState) (entity : GlweCiphertextEntity) :
    MakerState :=
  { m with destroyed := m.destroyed ++ [entity.id] }

/-- `SynthesizesFloatCleartext::synthesize_cleartext`. -/
def synthesize_cleartext (m : MakerState) (proto : ProtoCleartextF64) :
    CleartextF64Entity × MakerState :=
  ({ id := m.next_id, raw := transform_cleartext_to_raw_f64 proto },
   { m with next_id := m.next_id + 1 })

/-- `SynthesizesFloatCleartext::destroy_cleartext`. -/
def destroy_cleartext (m : MakerState) (entity : CleartextF64Entity) :
    MakerState :=
  { m with destroyed := m.destroyed ++ [entity.id] }

/-- The pre-execution context of the tensor-product fixture. -/
abbrev PreExecutionContext : Type :=
  GlweCiphertextEntity × GlweCiphertextEntity × CleartextF64Entity

/-- The post-execution context of the tensor-product fixture. -/
abbrev PostExecutionContext : Type :=
  GlweCiphertextEntity × GlweCiphertextEntity × GlweCiphertextEntity × CleartextF64Entity

/-- Which entry point of the engine operation an invocation went through. -/
inductive EntryPoint where
  | checked
  | unchecked
deriving DecidableEq

/-- A backend engine implementing the `GlweCiphertextTensorProductEngine`
trait: the tensor-product operation itself is backend-specific (out of
scope), so it is an abstract function on prototype content; the engine
allocates the fresh output entity under `alloc_id`. -/
structure GlweCiphertextTensorProductEngine where
  tensor_product : GlweCiphertextProto → GlweCiphertextProto → Rat → GlweCiphertextProto
  alloc_id : Nat

/-- `tensor_product_glwe_ciphertext_unchecked`: the unchecked entry point of
the tensor-product engine; applies the backend operation with no validation
and allocates a fresh output entity.  The model also reports which entry
point was used. -/
def tensor_product_glwe_ciphertext_unchecked
    (engine : GlweCiphertextTensorProductEngine)
    (input1 : GlweCiphertextEntity) (input2 : GlweCiphertextEntity)
    (scale : CleartextF64Entity) : GlweCiphertextEntity × EntryPoint :=
  ({ id := engine.alloc_id
     proto := engine.tensor_product input1.proto input2.proto scale.raw },
   EntryPoint.unchecked)

/-- `GlweCiphertextTensorProductFixture::prepare_context`: synthesizes the
backend entities of one sample from the chosen prototypes. -/
def prepare_context (m : MakerState)
    (repetition_proto : RepetitionPrototypes)
    (sample_proto : SamplePrototypes) :
    PreExecutionContext × MakerState :=
  let (_, _, _, proto_scale) := repetition_proto
  let (proto_ciphertext1, proto_ciphertext2) := sample_proto
  let (ciphertext1, m) := synthesize_glwe_ciphertext m proto_ciphertext1
  let (ciphertext2, m) := synthesize_glwe_ciphertext m proto_ciphertext2
  let (scale, m) := synthesize_cleartext m proto_scale
  ((ciphertext1, ciphertext2, scale), m)

/-- `GlweCiphertextTensorProductFixture::execute_engine`: invokes the engine
operation on the synthesized entities through the unchecked entry point.
The second component is the trace of entry points invoked. -/
def execute_engine (_parameters : GlweCiphertextTensorProductParameters)
    (engine : GlweCiphertextTensorProductEngine)
    (context : PreExecutionContext) :
    PostExecutionContext × List EntryPoint :=
  let (proto_ciphertext1, proto_ciphertext2, scale) := context
  let (output_ciphertext, entry) :=
    tensor_product_glwe_ciphertext_unchecked engine proto_ciphertext1
      proto_ciphertext2 scale
  ((proto_ciphertext1, proto_ciphertext2, output_ciphertext, scale), [entry])

/-- The outcome of one sample: (expected raw vector, actual raw vector). -/
abbrev Outcome : Type :=
  List Nat × List Nat

/-- `GlweCiphertextTensorProductFixture::process_context`: un-synthesizes
the result, destroys all synthesized entities, decrypts, and emits the
outcome pair.  `Vec::with_capacity(parameters.polynomial_size.0)` allocates
capacity but yields the empty vector, which is returned unfilled (the
elementwise product computation is commented out in the source). -/
def process_context (parameters : GlweCiphertextTensorProductParameters)
    (m : MakerState) (repetition_proto : RepetitionPrototypes)
    (_sample_proto : SamplePrototypes) (context : PostExecutionContext) :
    Outcome × MakerState :=
  let (proto_plaintext_vector1, proto_plaintext_vector2, proto_secret_key,
    proto_scale) := repetition_proto
  let (input_ciphertext_1, input_ciphertext_2, output_ciphertext, scale) := context
  let proto_output_ciphertext := unsynthesize_glwe_ciphertext output_ciphertext
  let m := destroy_glwe_ciphertext m input_ciphertext_1
  let m := destroy_glwe_ciphertext m input_ciphertext_2
  let m := destroy_glwe_ciphertext m output_ciphertext
  let m := destroy_cleartext m scale
  let proto_output_plaintext_vector :=
    decrypt_glwe_ciphertext_to_plaintext_vector proto_secret_key
      proto_output_ciphertext
  let raw_input_plaintext_vector1 :=
    transform_plaintext_vector_to_raw_vec proto_plaintext_vector1
  let raw_input_plaintext_vector2 :=
    transform_plaintext_vector_to_raw_vec proto_plaintext_vector2
  let raw_scale := transform_cleartext_to_raw_f64 proto_scale
  let raw_input_plaintext_vector : List Nat := []
  ((raw_input_plaintext_vector,
    transform_plaintext_vector_to_raw_vec proto_output_plaintext_vector), m)

/-- The key kinds of the `concrete_npe` noise-formula vocabulary
(`BinaryKeyKind`, `TernaryKeyKind`, `GaussianKeyKind`). -/
inductive KeyKind where
  | BinaryKeyKind
  | TernaryKeyKind
  | GaussianKeyKind
deriving DecidableEq

/-- The signature of `concrete_npe::estimate_tensor_product_noise`
instantiated at a key kind; the formula itself lives in the external
`concrete_npe` crate and is an abstract parameter of the model. -/
def EstimateTensorProductNoise : Type :=
  KeyKind → PolynomialSize → GlweDimension → Variance → Variance →
    Rat → Rat → Rat → Rat → Variance

/-- `fix_estimate_tensor_product_noise`: dispatches to the noise formula by
the runtime type identity of the key-distribution marker `k`, mapping each
of the three known markers to the corresponding `concrete_npe` key kind; any
marker outside the closed set hits the `panic!` branch (modelled as the
error carrying the panic message). -/
def fix_estimate_tensor_product_noise (estimate : EstimateTensorProductNoise)
    (k : KeyDistributionMarker) (poly_size : PolynomialSize)
    (rlwe_mask_size : GlweDimension) (var_glwe1 : Variance) (var_glwe2 : Variance)
    (delta_1 : Rat) (delta_2 : Rat) (max_msg_1 : Rat) (max_msg_2 : Rat) :
    Except String Variance :=
  match k with
  | KeyDistributionMarker.binary =>
      Except.ok (estimate KeyKind.BinaryKeyKind poly_size rlwe_mask_size
        var_glwe1 var_glwe2 delta_1 delta_2 max_msg_1 max_msg_2)
  | KeyDistributionMarker.ternary =>
      Except.ok (estimate KeyKind.TernaryKeyKind poly_size rlwe_mask_size
        var_glwe1 var_glwe2 delta_1 delta_2 max_msg_1 max_msg_2)
  | KeyDistributionMarker.gaussian =>
      Except.ok (estimate KeyKind.GaussianKeyKind poly_size rlwe_mask_size
        var_glwe1 var_glwe2 delta_1 delta_2 max_msg_1 max_msg_2)
  | KeyDistributionMarker.unknown _ =>
      Except.error "Unknown key distribution encountered."

/-- `GlweCiphertextTensorProductFixture::compute_criteria`: computes the
noise-oracle-predicted output variance from the operation parameters via
`fix_estimate_tensor_product_noise` (`k` is the key-distribution marker of
the input ciphertext type). -/
def compute_criteria (estimate : EstimateTensorProductNoise)
    (k : KeyDistributionMarker)
    (parameters : GlweCiphertextTensorProductParameters) :
    Except String Variance :=
  fix_estimate_tensor_product_noise estimate k parameters.polynomial_size
    parameters.glwe_dimension parameters.noise_glwe_1 parameters.noise_glwe_2
    parameters.delta_1 parameters.delta_2 parameters.msg_bound_1
    parameters.msg_bound_2

/-- A concrete LWE ciphertext of dimension 2 used as witness input. -/
def lweCt2 : LweCiphertext :=
  { key_distribution := KeyDistributionMarker.binary
    lwe_dimension := 2
    content := [5, 7, 9] }

/-- A concrete LWE ciphertext of dimension 3 used as witness input. -/
def lweCt3 : LweCiphertext :=
  { key_distribution := KeyDistributionMarker.binary
    lwe_dimension := 3
    content := [1, 2, 3, 4] }

/-- A concrete keyswitch key with input dimension 2 and output dimension 3
used as witness input. -/
def ksk23 : LweKeyswitchKey :=
  { input_key_distribution := KeyDistributionMarker.binary
    output_key_distribution := KeyDistributionMarker.binary
    input_lwe_dimension := 2
    output_lwe_dimension := 3
    content := [11, 12] }

/-- C1: on every pair of inputs satisfying the preconditions (matching
key-distribution markers, matching LWE dimensions, and for keyswitch the
dimensions matching the keyswitch key), the checked entry point of each
discarding operation returns success and leaves the output equal to what
the corresponding unchecked entry point produces. -/
theorem checked_discarding_refines_unchecked (E : Type)
    (uks : LweCiphertext → LweCiphertext → LweKeyswitchKey → LweCiphertext)
    (uneg : LweCiphertext → LweCiphertext → LweCiphertext)
    (output input : LweCiphertext) (ksk : LweKeyswitchKey)
    (output2 input2 : LweCiphertext)
    (hkd1 : input.key_distribution = ksk.input_key_distribution)
    (hkd2 : output.key_distribution = ksk.output_key_distribution)
    (hd1 : input.lwe_dimension = ksk.input_lwe_dimension)
    (hd2 : output.lwe_dimension = ksk.output_lwe_dimension)
    (hkd3 : input2.key_distribution = output2.key_distribution)
    (hd3 : input2.lwe_dimension = output2.lwe_dimension) :
    discard_keyswitch_lwe_ciphertext E uks output input ksk
        = (Except.ok (), discard_keyswitch_lwe_ciphertext_unchecked uks output input ksk)
      ∧ discard_neg_lwe_ciphertext E uneg output2 input2
        = (Except.ok (), discard_neg_lwe_ciphertext_unchecked uneg output2 input2) := by
  unfold discard_keyswitch_lwe_ciphertext discard_neg_lwe_ciphertext
    LweCiphertextDiscardingKeyswitchError.perform_generic_checks
    LweCiphertextDiscardingNegationError.perform_generic_checks
  simp [hd1, hd2, hd3]

/-- Witness for C1: concrete valid inputs on which the checked keyswitch
and the checked negation succeed and agree with the unchecked results. -/
theorem checked_discarding_refines_unchecked_witness :
    discard_keyswitch_lwe_ciphertext Unit (fun o _ _ => o) lweCt3 lweCt2 ksk23
        = (Except.ok (), discard_keyswitch_lwe_ciphertext_unchecked
            (fun o _ _ => o) lweCt3 lweCt2 ksk23)
      ∧ discard_neg_lwe_ciphertext Unit (fun o _ => o) lweCt2 lweCt2
        = (Except.ok (), discard_neg_lwe_ciphertext_unchecked (fun o _ => o) lweCt2 lweCt2) :=
  checked_discarding_refines_unchecked Unit (fun o _ _ => o) (fun o _ => o)
    lweCt3 lweCt2 ksk23 lweCt2 lweCt2 rfl rfl rfl rfl rfl rfl

/-- C2: the generic precondition check of the discarding keyswitch returns
`InputLweDimensionMismatch` exactly when the input dimension differs from
the keyswitch key input dimension, `OutputLweDimensionMismatch` exactly when
the input side matches but the output dimension differs from the keyswitch
key output dimension, and `Ok` exactly when both relations hold; the
input-side check short-circuits the output-side check. -/
theorem keyswitch_generic_checks_characterization (E : Type)
    (output input : LweCiphertext) (ksk : LweKeyswitchKey) :
    (LweCiphertextDiscardingKeyswitchError.perform_generic_checks E output input ksk
        = Except.error LweCiphertextDiscardingKeyswitchError.InputLweDimensionMismatch
      ↔ input.lwe_dimension ≠ ksk.input_lwe_dimension)
    ∧ (LweCiphertextDiscardingKeyswitchError.perform_generic_checks E output input ksk
        = Except.error LweCiphertextDiscardingKeyswitchError.OutputLweDimensionMismatch
      ↔ input.lwe_dimension = ksk.input_lwe_dimension
          ∧ output.lwe_dimension ≠ ksk.output_lwe_dimension)
    ∧ (LweCiphertextDiscardingKeyswitchError.perform_generic_checks E output input ksk
        = Except.ok ()
      ↔ input.lwe_dimension = ksk.input_lwe_dimension
          ∧ output.lwe_dimension = ksk.output_lwe_dimension) := by
  unfold LweCiphertextDiscardingKeyswitchError.perform_generic_checks
  split_ifs with h1 h2 <;> simp_all

/-- C3: whenever a generic precondition check fails, the checked entry point
of the discarding operation returns that named error and the output entity
is unchanged from before the call. -/
theorem checked_discarding_error_no_mutation (E : Type)
    (uks : LweCiphertext → LweCiphertext → LweKeyswitchKey → LweCiphertext)
    (uneg : LweCiphertext → LweCiphertext → LweCiphertext)
    (output input : LweCiphertext) (ksk : LweKeyswitchKey)
    (output2 input2 : LweCiphertext)
    (e : LweCiphertextDiscardingKeyswitchError E)
    (e2 : LweCiphertextDiscardingNegationError E)
    (h1 : LweCiphertextDiscardingKeyswitchError.perform_generic_checks E output input ksk
        = Except.error e)
    (h2 : LweCiphertextDiscardingNegationError.perform_generic_checks E output2 input2
        = Except.error e2) :
    discard_keyswitch_lwe_ciphertext E uks output input ksk = (Except.error e, output)
      ∧ discard_neg_lwe_ciphertext E uneg output2 input2 = (Except.error e2, output2) := by
  unfold discard_keyswitch_lwe_ciphertext discard_neg_lwe_ciphertext
  rw [h1, h2]
  exact ⟨rfl, rfl⟩

/-- Witness for C3: concrete mismatched inputs on which the checked
keyswitch and the checked negation return the named error and leave the
output entity unchanged. -/
theorem checked_discarding_error_no_mutation_witness :
    discard_keyswitch_lwe_ciphertext Unit (fun o _ _ => o) lweCt2 lweCt3 ksk23
        = (Except.error
            LweCiphertextDiscardingKeyswitchError.InputLweDimensionMismatch, lweCt2)
      ∧ discard_neg_lwe_ciphertext Unit (fun o _ => o) lweCt2 lweCt3
        = (Except.error
            LweCiphertextDiscardingNegationError.LweDimensionMismatch, lweCt2) :=
  checked_discarding_error_no_mutation Unit (fun o _ _ => o) (fun o _ => o)
    lweCt2 lweCt3 ksk23 lweCt2 lweCt3
    LweCiphertextDiscardingKeyswitchError.InputLweDimensionMismatch
    LweCiphertextDiscardingNegationError.LweDimensionMismatch rfl rfl

/-- A concrete parameter set (polynomial size 256) used in counterexamples. -/
def sampleParams : GlweCiphertextTensorProductParameters :=
  { polynomial_size := { val := 256 }
    glwe_dimension := { val := 1 }
    noise_glwe_1 := { val := 1 / 100000000 }
    noise_glwe_2 := { val := 1 / 100000000 }
    delta_1 := 16
    delta_2 := 16
    msg_bound_1 := 4
    msg_bound_2 := 4 }

/-- The same parameter set with different scaling deltas and message
bounds, everything else identical. -/
def sampleParamsAltBounds : GlweCiphertextTensorProductParameters :=
  { polynomial_size := { val := 256 }
    glwe_dimension := { val := 1 }
    noise_glwe_1 := { val := 1 / 100000000 }
    noise_glwe_2 := { val := 1 / 100000000 }
    delta_1 := 32
    delta_2 := 64
    msg_bound_1 := 8
    msg_bound_2 := 2 }

/-- A concrete randomness assignment for the `Maker` model. -/
def idMakerRand : MakerRand :=
  { key_rand := fun i => i
    pt1_rand := fun i => i
    pt2_rand := fun i => i }

/-- A concrete secret-key prototype used in counterexamples. -/
def sampleSecretKey : GlweSecretKeyProto :=
  { glwe_dimension := { val := 1 }
    polynomial_size := { val := 256 }
    coefficients := [1, 0, 1] }

/-- Concrete repetition prototypes used in counterexamples. -/
def sampleRep : RepetitionPrototypes :=
  ({ raw := [1, 2, 3] }, { raw := [4, 5, 6] }, sampleSecretKey,
    transform_raw_to_cleartext_f64 1)

/-- Concrete sample prototypes used in counterexamples. -/
def sampleSample : SamplePrototypes :=
  (encrypt_plaintext_vector_to_glwe_ciphertext sampleSecretKey { raw := [1, 2, 3] }
      { val := 1 / 100000000 } (fun i => i),
   encrypt_plaintext_vector_to_glwe_ciphertext sampleSecretKey { raw := [4, 5, 6] }
      { val := 1 / 100000000 } (fun i => i))

/-- A concrete backend engine model used in counterexamples: the backend
operation returns its first operand and the fresh output entity id is 100. -/
def sampleEngine : GlweCiphertextTensorProductEngine :=
  { tensor_product := fun c1 _ _ => c1
    alloc_id := 100 }

/-- A fresh `Maker` state. -/
def sampleMaker : MakerState :=
  { next_id := 0, destroyed := [] }

/-- C4 counterexample: on the concrete 256-size parameter set, the expected
raw vector emitted as the first component of the outcome of
`process_context` is the empty vector, not a zero-filled vector of the
polynomial size. -/
theorem tensor_product_expected_vector_not_zero_filled :
    (process_context sampleParams
        (prepare_context sampleMaker sampleRep sampleSample).2 sampleRep sampleSample
        (execute_engine sampleParams sampleEngine
          (prepare_context sampleMaker sampleRep sampleSample).1).1).1.1
      = ([] : List Nat)
    ∧ (process_context sampleParams
        (prepare_context sampleMaker sampleRep sampleSample).2 sampleRep sampleSample
        (execute_engine sampleParams sampleEngine
          (prepare_context sampleMaker sampleRep sampleSample).1).1).1.1
      ≠ List.replicate sampleParams.polynomial_size.val 0 := by
  constructor
  · rfl
  · have h : (process_context sampleParams
        (prepare_context sampleMaker sampleRep sampleSample).2 sampleRep sampleSample
        (execute_engine sampleParams sampleEngine
          (prepare_context sampleMaker sampleRep sampleSample).1).1).1.1
      = ([] : List Nat) := rfl
    rw [h]
    intro hcontra
    have hlen := congrArg List.length hcontra
    rw [List.length_replicate] at hlen
    simp [sampleParams] at hlen

/-- C4 (amended): in every trial, the expected raw vector emitted as the
first component of the outcome pair by `process_context` is the empty
placeholder vector (only capacity is reserved), rather than the elementwise
tensor product of the two input plaintext vectors. -/
theorem tensor_product_expected_vector_empty
    (parameters : GlweCiphertextTensorProductParameters) (m : MakerState)
    (repetition_proto : RepetitionPrototypes) (sample_proto : SamplePrototypes)
    (context : PostExecutionContext) :
    (process_context parameters m repetition_proto sample_proto context).1.1
      = ([] : List Nat) := by
  obtain ⟨p1, p2, sk, sc⟩ := repetition_proto
  obtain ⟨e1, e2, eo, es⟩ := context
  rfl

/-- C5 counterexample: on a concrete invocation, the execution phase goes
through the unchecked entry point, which differs from the checked entry
point; no configuration input selects between them. -/
theorem execute_engine_entry_point_fixed :
    (execute_engine sampleParams sampleEngine
        (prepare_context sampleMaker sampleRep sampleSample).1).2
      = [EntryPoint.unchecked]
    ∧ EntryPoint.unchecked ≠ EntryPoint.checked := by
  exact ⟨rfl, by decide⟩

/-- C5 (amended): the execution phase of the tensor-product fixture always
invokes the engine operation through the unchecked entry point; the choice
of entry point is fixed, not selected by any harness configuration. -/
theorem execute_engine_always_unchecked
    (parameters : GlweCiphertextTensorProductParameters)
    (engine : GlweCiphertextTensorProductEngine) (context : PreExecutionContext) :
    (execute_engine parameters engine context).2 = [EntryPoint.unchecked] := by
  obtain ⟨c1, c2, s⟩ := context
  rfl

/-- C6: the noise-criteria dispatch selects the noise formula by the
key-distribution marker identity: each of the three known markers maps to
`concrete_npe::estimate_tensor_product_noise` at the corresponding key kind
and returns without panicking, every marker outside the closed set hits the
panic branch, and every marker is in one of those two cases (so under the
precondition that the marker is one of the three, the panic branch is
unreachable). -/
theorem fix_estimate_tensor_product_noise_dispatch
    (estimate : EstimateTensorProductNoise) (poly_size : PolynomialSize)
    (rlwe_mask_size : GlweDimension) (var_glwe1 var_glwe2 : Variance)
    (delta_1 delta_2 max_msg_1 max_msg_2 : Rat) :
    fix_estimate_tensor_product_noise estimate KeyDistributionMarker.binary
        poly_size rlwe_mask_size var_glwe1 var_glwe2 delta_1 delta_2 max_msg_1 max_msg_2
      = Except.ok (estimate KeyKind.BinaryKeyKind poly_size rlwe_mask_size
          var_glwe1 var_glwe2 delta_1 delta_2 max_msg_1 max_msg_2)
    ∧ fix_estimate_tensor_product_noise estimate KeyDistributionMarker.ternary
        poly_size rlwe_mask_size var_glwe1 var_glwe2 delta_1 delta_2 max_msg_1 max_msg_2
      = Except.ok (estimate KeyKind.TernaryKeyKind poly_size rlwe_mask_size
          var_glwe1 var_glwe2 delta_1 delta_2 max_msg_1 max_msg_2)
    ∧ fix_estimate_tensor_product_noise estimate KeyDistributionMarker.gaussian
        poly_size rlwe_mask_size var_glwe1 var_glwe2 delta_1 delta_2 max_msg_1 max_msg_2
      = Except.ok (estimate KeyKind.GaussianKeyKind poly_size rlwe_mask_size
          var_glwe1 var_glwe2 delta_1 delta_2 max_msg_1 max_msg_2)
    ∧ (∀ i : Nat,
        fix_estimate_tensor_product_noise estimate (KeyDistributionMarker.unknown i)
            poly_size rlwe_mask_size var_glwe1 var_glwe2 delta_1 delta_2 max_msg_1 max_msg_2
          = Except.error "Unknown key distribution encountered.")
    ∧ (∀ k : KeyDistributionMarker,
        (∃ v, fix_estimate_tensor_product_noise estimate k poly_size rlwe_mask_size
            var_glwe1 var_glwe2 delta_1 delta_2 max_msg_1 max_msg_2 = Except.ok v)
        ∨ (∃ i, k = KeyDistributionMarker.unknown i)) := by
  refine ⟨rfl, rfl, rfl, fun i => rfl, fun k => ?_⟩
  cases k with
  | binary => exact Or.inl ⟨_, rfl⟩
  | ternary => exact Or.inl ⟨_, rfl⟩
  | gaussian => exact Or.inl ⟨_, rfl⟩
  | unknown i => exact Or.inr ⟨i, rfl⟩

/-- C7: the parameter enumeration of the tensor-product fixture yields
exactly two parameter sets, both of polynomial size 256, both injected
variances 1e-8, both deltas 16, both message bounds 4, with GLWE dimensions
200 and 1; and in every repetition the scaling cleartext prototype is
created from the raw value 1. -/
theorem tensor_product_parameters_enumeration :
    generate_parameters_iterator.length = 2
    ∧ generate_parameters_iterator.map (fun p => p.polynomial_size.val) = [256, 256]
    ∧ generate_parameters_iterator.map (fun p => p.noise_glwe_1.val)
      = [1 / 100000000, 1 / 100000000]
    ∧ generate_parameters_iterator.map (fun p => p.noise_glwe_2.val)
      = [1 / 100000000, 1 / 100000000]
    ∧ generate_parameters_iterator.map (fun p => p.delta_1) = [16, 16]
    ∧ generate_parameters_iterator.map (fun p => p.delta_2) = [16, 16]
    ∧ generate_parameters_iterator.map (fun p => p.msg_bound_1) = [4, 4]
    ∧ generate_parameters_iterator.map (fun p => p.msg_bound_2) = [4, 4]
    ∧ generate_parameters_iterator.map (fun p => p.glwe_dimension.val) = [200, 1]
    ∧ (∀ (w : Nat) (parameters : GlweCiphertextTensorProductParameters)
        (maker : MakerRand),
        (generate_random_repetition_prototypes w parameters maker).2.2.2
          = transform_raw_to_cleartext_f64 1) := by
  refine ⟨rfl, rfl, rfl, rfl, rfl, rfl, rfl, rfl, rfl, fun w parameters maker => rfl⟩

/-- C8 counterexample: two parameter sets that differ exactly in the
scaling deltas and message-magnitude bounds generate identical repetition
and sample prototypes under the same randomness, so these components do not
influence prototype generation. -/
theorem prototype_generation_ignores_bounds_and_deltas :
    sampleParams ≠ sampleParamsAltBounds
    ∧ generate_random_repetition_prototypes 64 sampleParams idMakerRand
      = generate_random_repetition_prototypes 64 sampleParamsAltBounds idMakerRand
    ∧ generate_random_sample_prototypes sampleParams sampleRep
        (fun i => i) (fun i => i)
      = generate_random_sample_prototypes sampleParamsAltBounds sampleRep
        (fun i => i) (fun i => i) := by
  refine ⟨?_, rfl, rfl⟩
  intro h
  have hd := congrArg GlweCiphertextTensorProductParameters.delta_1 h
  simp [sampleParams, sampleParamsAltBounds] at hd

/-- C8 (amended): the operation parameters drive prototype generation only
through the GLWE dimension, the polynomial size and the injected noise
variances: repetition prototypes carry the parameter dimension and
polynomial size (plaintext length equal to the polynomial size), sample
prototypes carry the parameter noise variances, and changing the scaling
deltas or the message-magnitude bounds (which drive only the noise oracle)
leaves all generated prototypes unchanged. -/
theorem prototype_generation_parameter_dependence (w : Nat)
    (parameters : GlweCiphertextTensorProductParameters)
    (b1 b2 d1 d2 : Rat) (maker : MakerRand)
    (repetition_proto : RepetitionPrototypes) (r1 r2 : Nat → Nat) :
    (generate_random_repetition_prototypes w parameters maker).2.2.1.glwe_dimension
      = parameters.glwe_dimension
    ∧ (generate_random_repetition_prototypes w parameters maker).2.2.1.polynomial_size
      = parameters.polynomial_size
    ∧ (generate_random_repetition_prototypes w parameters maker).1.raw.length
      = parameters.polynomial_size.val
    ∧ (generate_random_sample_prototypes parameters repetition_proto r1 r2).1.noise
      = parameters.noise_glwe_1
    ∧ (generate_random_sample_prototypes parameters repetition_proto r1 r2).2.noise
      = parameters.noise_glwe_2
    ∧ generate_random_repetition_prototypes w
        { parameters with
          msg_bound_1 := b1
          msg_bound_2 := b2
          delta_1 := d1
          delta_2 := d2 } maker
      = generate_random_repetition_prototypes w parameters maker
    ∧ generate_random_sample_prototypes
        { parameters with
          msg_bound_1 := b1
          msg_bound_2 := b2
          delta_1 := d1
          delta_2 := d2 } repetition_proto r1 r2
      = generate_random_sample_prototypes parameters repetition_proto r1 r2 := by
  obtain ⟨p1, p2, sk, sc⟩ := repetition_proto
  refine ⟨rfl, rfl, ?_, rfl, rfl, rfl, rfl⟩
  simp [generate_random_repetition_prototypes, uniform_n_msb_vec,
    transform_raw_vec_to_plaintext_vector]

/-- C9: synthesis/un-synthesis round-trips are lossless for logical
content: un-synthesizing a synthesized GGSW ciphertext prototype yields the
original prototype, and raw-to-cleartext followed by cleartext-to-raw is
the identity on raw u32, u64 and f64 values. -/
theorem synthesis_roundtrip_lossless :
    (∀ (α : Type) (prototype : GgswCiphertextProto α),
      unsynthesize_ggsw_ciphertext (synthesize_ggsw_ciphertext prototype) = prototype)
    ∧ (∀ raw : Nat, transform_cleartext_to_raw_32 (transform_raw_to_cleartext_32 raw) = raw)
    ∧ (∀ raw : Nat, transform_cleartext_to_raw_64 (transform_raw_to_cleartext_64 raw) = raw)
    ∧ (∀ raw : Rat, transform_cleartext_to_raw_f64 (transform_raw_to_cleartext_f64 raw) = raw) :=
  ⟨fun α prototype => rfl, fun raw => rfl, fun raw => rfl, fun raw => rfl⟩

/-- C10: in every trial, the entities synthesized in `prepare_context` (the
two input ciphertexts, ids `n` and `n + 1`, and the scale cleartext, id
`n + 2`) together with the engine-allocated output ciphertext are destroyed
exactly once by `process_context`, and nothing else is destroyed: starting
from a clean `Maker` state, the destruction trace is exactly those four
distinct ids. -/
theorem tensor_product_entity_destruction (m0 : MakerState)
    (repetition_proto : RepetitionPrototypes) (sample_proto : SamplePrototypes)
    (engine : GlweCiphertextTensorProductEngine)
    (parameters : GlweCiphertextTensorProductParameters)
    (h0 : m0.destroyed = [])
    (ha : engine.alloc_id ∉ [m0.next_id, m0.next_id + 1, m0.next_id + 2]) :
    (prepare_context m0 repetition_proto sample_proto).1.1.id = m0.next_id
    ∧ (prepare_context m0 repetition_proto sample_proto).1.2.1.id = m0.next_id + 1
    ∧ (prepare_context m0 repetition_proto sample_proto).1.2.2.id = m0.next_id + 2
    ∧ (execute_engine parameters engine
        (prepare_context m0 repetition_proto sample_proto).1).1.2.2.1.id
      = engine.alloc_id
    ∧ (process_context parameters
        (prepare_context m0 repetition_proto sample_proto).2
        repetition_proto sample_proto
        (execute_engine parameters engine
          (prepare_context m0 repetition_proto sample_proto).1).1).2.destroyed
      = [m0.next_id, m0.next_id + 1, engine.alloc_id, m0.next_id + 2]
    ∧ List.Nodup [m0.next_id, m0.next_id + 1, engine.alloc_id, m0.next_id + 2] := by
  obtain ⟨p1, p2, sk, sc⟩ := repetition_proto
  obtain ⟨c1, c2⟩ := sample_proto
  simp only [List.mem_cons, List.not_mem_nil, not_or, or_false] at ha
  refine ⟨rfl, rfl, rfl, rfl, ?_, ?_⟩
  · simp [prepare_context, execute_engine, process_context,
      synthesize_glwe_ciphertext, synthesize_cleartext,
      tensor_product_glwe_ciphertext_unchecked, destroy_glwe_ciphertext,
      destroy_cleartext, unsynthesize_glwe_ciphertext, h0]
  · simp [List.nodup_cons]
    omega

/-- Witness for C10: a concrete trial starting from a fresh `Maker` state,
where the three synthesized entities get ids 0, 1, 2 and the engine output
gets id 100, destroys exactly those four ids, each once. -/
theorem tensor_product_entity_destruction_witness :
    (process_context sampleParams
        (prepare_context sampleMaker sampleRep sampleSample).2
        sampleRep sampleSample
        (execute_engine sampleParams sampleEngine
          (prepare_context sampleMaker sampleRep sampleSample).1).1).2.destroyed
      = [0, 1, 100, 2] := by
  have h := tensor_product_entity_destruction sampleMaker sampleRep sampleSample
    sampleEngine sampleParams rfl (by decide)
  exact h.2.2.2.2.1

end Concrete
